import Mathlib

/-!
Verification development for the aare-gcp repository, a Google Cloud
Function that verifies LLM output against a named compliance ontology.

The embedding models the two source files:
  * `src/handlers/ontology_loader.py` — the `OntologyLoader` class:
    fetch from Google Cloud Storage, shape validation, LRU caching
    (`functools.lru_cache(maxsize=10)`), fallback to a built-in default
    ontology, and `list_available`.
  * `src/main.py` — the HTTP entry point `verify`: CORS header
    computation, method gating, body validation and the
    load → parse → verify → respond pipeline with a single top-level
    exception handler.

Python values flowing through the handlers are JSON-like; they are
modelled by the inductive type `Json`.  Python exceptions are modelled
by `Except PyErr`; a raised exception is an `.error` value carrying the
exception's type name and message.  The Google Cloud Storage client is
modelled by an abstract behaviour (`StoreBehavior`): a function from
blob names to fetch outcomes plus a listing outcome, quantified over in
the theorems.  `storage_client = none` models the constructor having
failed to initialise the client.
-/

/-- A JSON-like Python value: the payloads moving through the service. -/
inductive Json where
  | null
  | bool (b : Bool)
  | num (n : Int)
  | str (s : String)
  | arr (elts : List Json)
  | obj (kvs : List (String × Json))

/-- A raised Python exception: its class name (`type(e).__name__`) and
its message (`str(e)`). -/
structure PyErr where
  ty : String
  msg : String
deriving DecidableEq

/-- Key lookup in a Python dict modelled as an association list
(keys unique, insertion-ordered). -/
def lookupKey (kvs : List (String × Json)) (key : String) : Option Json :=
  match kvs with
  | [] => none
  | (k, v) :: rest => if k = key then some v else lookupKey rest key

/-- Python truthiness (`bool(x)`) of a JSON-like value. -/
def Json.isTruthy : Json → Bool
  | .null => false
  | .bool b => b
  | .num n => n != 0
  | .str s => s != ""
  | .arr elts => !elts.isEmpty
  | .obj kvs => !kvs.isEmpty

/-- Lookup of a key in a JSON value when it is an object. -/
def Json.getKey (j : Json) (key : String) : Option Json :=
  match j with
  | .obj kvs => lookupKey kvs key
  | _ => none

/-- Outcome of `blob.download_as_text()` followed by `json.loads`:
the blob may be missing (`NotFound`), the download may fail with any
other exception, the text may fail to parse as JSON, or a JSON document
is obtained. -/
inductive FetchOutcome where
  | notFound
  | fetchError (msg : String)
  | badJson
  | doc (j : Json)

/-- Outcome of `bucket.list_blobs()`: either the listing raises or it
yields the object names in the bucket. -/
inductive ListOutcome where
  | err (msg : String)
  | names (ns : List String)

/-- Abstract behaviour of the Google Cloud Storage client: what fetching
a given blob name returns, and what listing the bucket returns. -/
structure StoreBehavior where
  fetch : String → FetchOutcome
  listBlobs : ListOutcome

/-- Contiguous-substring test on character lists (Python's `in` on
strings). -/
def isSubstring (pat : List Char) (s : List Char) : Bool :=
  match s with
  | [] => pat.isEmpty
  | _ :: rest => pat.isPrefixOf s || isSubstring pat rest

/-- Does the character list start with `".json"`? -/
def startsWithJson (l : List Char) : Bool :=
  match l with
  | a :: b :: c :: d :: e :: _ => a == '.' && b == 'j' && c == 's' && d == 'o' && e == 'n'
  | _ => false

/-- Does `".json"` occur anywhere in the character list? -/
def containsJson : List Char → Bool
  | [] => false
  | c :: rest => startsWithJson (c :: rest) || containsJson rest

/-- Python `s.replace(".json", "")`: scan left to right and delete each
non-overlapping occurrence of `".json"`. -/
def stripJsonAll : List Char → List Char
  | [] => []
  | a :: b :: c :: d :: e :: rest =>
    if a == '.' && b == 'j' && c == 's' && d == 'o' && e == 'n'
    then stripJsonAll rest
    else a :: stripJsonAll (b :: c :: d :: e :: rest)
  | c :: rest => c :: stripJsonAll rest

namespace OntologyLoader

/-- `required_fields` in `_validate_ontology`. -/
def required_fields : List String := ["name", "version", "constraints", "extractors"]

/-- Python's `field in ontology` on a JSON-like value: key membership
for dicts, element membership for lists, substring for strings, and a
`TypeError` for non-container values. -/
def pyContains (field : String) (j : Json) : Except PyErr Bool :=
  match j with
  | .obj kvs => .ok (kvs.any (fun kv => kv.fst == field))
  | .arr elts => .ok (elts.any (fun x => match x with | .str s => s == field | _ => false))
  | .str s => .ok (isSubstring field.data s.data)
  | _ => .error ⟨"TypeError", "argument of type is not iterable"⟩

/-- The `for field in required_fields` loop of `_validate_ontology`:
raises `ValueError` at the first missing field, propagates a `TypeError`
from the membership test, and otherwise returns the document. -/
def validate_fields : List String → Json → Except PyErr Json
  | [], ontology => .ok ontology
  | f :: rest, ontology =>
    match pyContains f ontology with
    | .error e => .error e
    | .ok true => validate_fields rest ontology
    | .ok false => .error ⟨"ValueError", "Invalid ontology: missing " ++ f⟩

/-- `OntologyLoader._validate_ontology`. -/
def validate_ontology (ontology : Json) : Except PyErr Json :=
  validate_fields required_fields ontology

/-- `OntologyLoader._get_default_ontology`: the built-in default
mortgage-compliance ontology, transcribed field by field. -/
def get_default_ontology : Json :=
  .obj [
    ("name", .str "mortgage-compliance-v1"),
    ("version", .str "1.0.0"),
    ("description", .str "U.S. Mortgage Compliance - Core constraints"),
    ("constraints", .arr [
      .obj [
        ("id", .str "ATR_QM_DTI"),
        ("category", .str "ATR/QM"),
        ("description", .str "Debt-to-income ratio requirements"),
        ("formula_readable", .str "(dti ≤ 43) ∨ (compensating_factors ≥ 2)"),
        ("variables", .arr [
          .obj [("name", .str "dti"), ("type", .str "real")],
          .obj [("name", .str "compensating_factors"), ("type", .str "int")]]),
        ("error_message", .str "DTI exceeds 43% without sufficient compensating factors"),
        ("citation", .str "12 CFR § 1026.43(c)")],
      .obj [
        ("id", .str "HOEPA_HIGH_COST"),
        ("category", .str "HOEPA"),
        ("description", .str "High-cost mortgage counseling requirement"),
        ("formula_readable", .str "(fee_percentage < 8) ∨ counseling_disclosed"),
        ("variables", .arr [
          .obj [("name", .str "fee_percentage"), ("type", .str "real")],
          .obj [("name", .str "counseling_disclosed"), ("type", .str "bool")]]),
        ("error_message", .str "HOEPA triggered - counseling disclosure required"),
        ("citation", .str "12 CFR § 1026.32")],
      .obj [
        ("id", .str "UDAAP_NO_GUARANTEES"),
        ("category", .str "UDAAP"),
        ("description", .str "Prohibition on guarantee language"),
        ("formula_readable", .str "¬(has_guarantee ∧ has_approval)"),
        ("variables", .arr [
          .obj [("name", .str "has_guarantee"), ("type", .str "bool")],
          .obj [("name", .str "has_approval"), ("type", .str "bool")]]),
        ("error_message", .str "Cannot guarantee approval"),
        ("citation", .str "12 CFR § 1036.3")],
      .obj [
        ("id", .str "HPML_ESCROW"),
        ("category", .str "Escrow"),
        ("description", .str "Escrow requirements based on FICO"),
        ("formula_readable", .str "(credit_score ≥ 620) ∨ ¬escrow_waived"),
        ("variables", .arr [
          .obj [("name", .str "credit_score"), ("type", .str "int")],
          .obj [("name", .str "escrow_waived"), ("type", .str "bool")]]),
        ("error_message", .str "Cannot waive escrow with FICO < 620"),
        ("citation", .str "12 CFR § 1026.35(b)")],
      .obj [
        ("id", .str "REG_B_ADVERSE"),
        ("category", .str "Regulation B"),
        ("description", .str "Adverse action disclosure requirements"),
        ("formula_readable", .str "is_denial → has_specific_reason"),
        ("variables", .arr [
          .obj [("name", .str "is_denial"), ("type", .str "bool")],
          .obj [("name", .str "has_specific_reason"), ("type", .str "bool")]]),
        ("error_message", .str "Must disclose specific denial reason"),
        ("citation", .str "12 CFR § 1002.9")]]),
    ("extractors", .obj [
      ("dti", .obj [("type", .str "float"), ("pattern", .str "dti[:\\s~]*(\\d+(?:\\.\\d+)?)")]),
      ("credit_score", .obj [("type", .str "int"), ("pattern", .str "(?:fico|credit score)[:\\s]*(\\d{3})")]),
      ("fees", .obj [("type", .str "money"), ("pattern", .str "\\$?([\\d,]+)k?\\s*(?:fees?|costs?)")]),
      ("loan_amount", .obj [("type", .str "money"), ("pattern", .str "\\$?([\\d,]+)k?\\s*(?:loan|mortgage)")]),
      ("has_guarantee", .obj [("type", .str "boolean"), ("keywords", .arr [.str "guaranteed", .str "100%", .str "definitely"])]),
      ("has_approval", .obj [("type", .str "boolean"), ("keywords", .arr [.str "approved", .str "approve"])]),
      ("counseling_disclosed", .obj [("type", .str "boolean"), ("keywords", .arr [.str "counseling"])]),
      ("escrow_waived", .obj [("type", .str "boolean"), ("keywords", .arr [.str "escrow waived", .str "waive escrow", .str "skip escrow"])]),
      ("is_denial", .obj [("type", .str "boolean"), ("keywords", .arr [.str "denied", .str "cannot approve"])]),
      ("has_specific_reason", .obj [("type", .str "boolean"), ("keywords", .arr [.str "credit", .str "income", .str "dti", .str "debt", .str "score"])])])]

/-- `OntologyLoader.load` (the body wrapped by `lru_cache`): fetch
`<name>.json`, parse, validate; every exception raised inside the `try`
block — `NotFound`, any other fetch error, a JSON parse error, or a
validation error — is caught, and the default ontology is returned.
With no storage client the fetch is skipped and the default is
returned.  The function is total: it never raises. -/
def load (storage_client : Option StoreBehavior) (ontology_name : String) : Json :=
  match storage_client with
  | none => get_default_ontology
  | some sb =>
    match sb.fetch (ontology_name ++ ".json") with
    | .notFound => get_default_ontology
    | .fetchError _ => get_default_ontology
    | .badJson => get_default_ontology
    | .doc j =>
      match validate_ontology j with
      | .ok v => v
      | .error _ => get_default_ontology

/-- `OntologyLoader.list_available`: list blob names, keep those ending
in `".json"`, and apply `str.replace(".json", "")` to each; any storage
failure (or an uninitialised client) yields the default singleton. -/
def list_available (storage_client : Option StoreBehavior) : List String :=
  match storage_client with
  | some sb =>
    match sb.listBlobs with
    | .names ns =>
      (ns.filter (fun n => List.isSuffixOf ['.', 'j', 's', 'o', 'n'] n.data)).map
        (fun n => ⟨stripJsonAll n.data⟩)
    | .err _ => ["mortgage-compliance-v1"]
  | none => ["mortgage-compliance-v1"]

end OntologyLoader

/-- The payload holds all four required fields as keys of a JSON
object (the property the spec asserts of every `load` result on the
fallback path). -/
def hasRequiredFields (j : Json) : Bool :=
  match j with
  | .obj kvs => OntologyLoader.required_fields.all (fun f => (lookupKey kvs f).isSome)
  | _ => false

example : hasRequiredFields OntologyLoader.get_default_ontology = true := by rfl

/-!  The `functools.lru_cache(maxsize=10)` decorator on
`OntologyLoader.load`.  Its documented semantics: memoise results keyed
by argument; a hit returns the stored result (making that key most
recently used) without calling the wrapped function; a miss calls the
wrapped function, stores the result, and once more than `maxsize`
entries exist discards the least recently used one.  The cache is
modelled as an association list ordered from most to least recently
used, together with a count of calls into the wrapped function. -/

/-- Remove a key's entry from the recency list. -/
def eraseKey : List (String × Json) → String → List (String × Json)
  | [], _ => []
  | (k, v) :: rest, key =>
    if k = key then eraseKey rest key else (k, v) :: eraseKey rest key

/-- The memoisation state attached to `load` by `lru_cache`:
the recency-ordered cache and the number of calls that reached the
wrapped function body. -/
structure LoadState where
  cache : List (String × Json)
  fetchCount : Nat

/-- `maxsize=10` in the `lru_cache` decorator. -/
def lru_maxsize : Nat := 10

/-- One call of the cached `load`: a hit returns the memoised document
and refreshes its recency; a miss runs `load`, stores the result at the
front, and truncates to capacity (dropping the least recently used
entry). -/
def cachedLoad (storage_client : Option StoreBehavior) (st : LoadState)
    (ontology_name : String) : Json × LoadState :=
  match lookupKey st.cache ontology_name with
  | some v =>
    (v, ⟨(ontology_name, v) :: eraseKey st.cache ontology_name, st.fetchCount⟩)
  | none =>
    let v := OntologyLoader.load storage_client ontology_name
    (v, ⟨((ontology_name, v) :: st.cache).take lru_maxsize, st.fetchCount + 1⟩)

/-!  The HTTP layer of `src/main.py`. -/

/-- The inbound HTTP request as the handler observes it: the method,
the `Origin` header when present, and the result of
`request.get_json(silent=True)` (`none` when the body is absent or not
parseable as JSON). -/
structure Request where
  method : String
  origin : Option String
  body : Option Json

/-- `ALLOWED_ORIGINS` in `src/main.py`. -/
def ALLOWED_ORIGINS : List String :=
  ["https://aare.ai", "https://www.aare.ai", "http://localhost:8000", "http://localhost:3000"]

/-- The four CORS/content headers every response carries. -/
structure CorsHeaders where
  contentType : String
  allowOrigin : String
  allowHeaders : String
  allowMethods : String

/-- `get_cors_headers`: echo an allow-listed `Origin`, otherwise fall
back to the first allow-listed origin. -/
def get_cors_headers (request : Request) : CorsHeaders :=
  let origin := request.origin.getD ""
  let allowed_origin :=
    if origin ∈ ALLOWED_ORIGINS then origin else ALLOWED_ORIGINS.get ⟨0, by decide⟩
  { contentType := "application/json"
    allowOrigin := allowed_origin
    allowHeaders := "Content-Type,x-api-key,Authorization"
    allowMethods := "OPTIONS,POST" }

/-- A response body: empty (the preflight) or a JSON document (what
`json.dumps` would serialise). -/
inductive Body where
  | empty
  | jsonBody (j : Json)

/-- The triple the handler returns: body, status code, headers. -/
structure HttpResponse where
  body : Body
  status : Nat
  headers : CorsHeaders

/-- `{"error": msg}` response bodies. -/
def errObj (msg : String) : Json := .obj [("error", .str msg)]

/-- `request_json.get(key, default)`: dictionary lookup with default;
on any non-dict value the attribute access raises `AttributeError`. -/
def dictGet (j : Json) (key : String) (dflt : Json) : Except PyErr Json :=
  match j with
  | .obj kvs => .ok ((lookupKey kvs key).getD dflt)
  | _ => .error ⟨"AttributeError", "object has no attribute \x27get\x27"⟩

/-- Python subscription `x[key]` with a string key: dict lookup raising
`KeyError` when missing, `TypeError` on non-dict values. -/
def getItem (j : Json) (key : String) : Except PyErr Json :=
  match j with
  | .obj kvs =>
    match lookupKey kvs key with
    | some v => .ok v
    | none => .error ⟨"KeyError", "\x27" ++ key ++ "\x27"⟩
  | .arr _ => .error ⟨"TypeError", "list indices must be integers or slices, not str"⟩
  | .str _ => .error ⟨"TypeError", "string indices must be integers"⟩
  | _ => .error ⟨"TypeError", "object is not subscriptable"⟩

/-- Python `len(x)` on a JSON-like value. -/
def pyLen (j : Json) : Except PyErr Json :=
  match j with
  | .arr elts => .ok (.num elts.length)
  | .obj kvs => .ok (.num kvs.length)
  | .str s => .ok (.num s.length)
  | _ => .error ⟨"TypeError", "object has no length"⟩

mutual

/-- Python `repr` of a JSON-like value (escaping of exotic characters
inside string literals is elided; the service's ontology names are
plain). -/
def pyRepr : Json → String
  | .null => "None"
  | .bool true => "True"
  | .bool false => "False"
  | .num n => toString n
  | .str s => "\x27" ++ s ++ "\x27"
  | .arr elts => "[" ++ pyReprList elts ++ "]"
  | .obj kvs => "\x7b" ++ pyReprObj kvs ++ "\x7d"

/-- Comma-separated `repr`s of list elements. -/
def pyReprList : List Json → String
  | [] => ""
  | [x] => pyRepr x
  | x :: y :: rest => pyRepr x ++ ", " ++ pyReprList (y :: rest)

/-- Comma-separated `repr`s of dict entries. -/
def pyReprObj : List (String × Json) → String
  | [] => ""
  | [(k, v)] => "\x27" ++ k ++ "\x27: " ++ pyRepr v
  | (k, v) :: p :: rest => "\x27" ++ k ++ "\x27: " ++ pyRepr v ++ ", " ++ pyReprObj (p :: rest)

end

/-- Python `str(x)` (as used by the f-string `f"{ontology_name}.json"`):
identity on strings, `repr`-like otherwise. -/
def pyStr : Json → String
  | .str s => s
  | j => pyRepr j

/-- Steps 3–6 of the handler (lines 90–114 of `src/main.py`): load the
ontology, run the extractor and the solver, and assemble the success
response body, with every subscription able to raise.  The sequencing
follows the source's evaluation order. -/
def runPipeline (storage_client : Option StoreBehavior)
    (parse smt_verify : Json → Json → Except PyErr Json)
    (verification_id timestamp : String)
    (llm_output : Json) (ontology_name : String) : Except PyErr Json := do
  let ontology := OntologyLoader.load storage_client ontology_name
  let extracted_data ← parse llm_output ontology
  let verification_result ← smt_verify extracted_data ontology
  let verified ← getItem verification_result "verified"
  let violations ← getItem verification_result "violations"
  let oname ← getItem ontology "name"
  let oversion ← getItem ontology "version"
  let constraints ← getItem ontology "constraints"
  let constraints_checked ← pyLen constraints
  let proof ← getItem verification_result "proof"
  let execution_time_ms ← getItem verification_result "execution_time_ms"
  return Json.obj [
    ("verified", verified),
    ("violations", violations),
    ("parsed_data", extracted_data),
    ("ontology", Json.obj [
      ("name", oname),
      ("version", oversion),
      ("constraints_checked", constraints_checked)]),
    ("proof", proof),
    ("solver", Json.str "Constraint Logic"),
    ("verification_id", Json.str verification_id),
    ("execution_time_ms", execution_time_ms),
    ("timestamp", Json.str timestamp)]

/-- The body of the `try:` block in `verify`, given the parsed request
body: the two early 400 returns, the field reads, and the pipeline.
An `.error` value is an exception about to reach the top-level
`except`. -/
def tryBody (storage_client : Option StoreBehavior)
    (parse smt_verify : Json → Json → Except PyErr Json)
    (verification_id timestamp : String)
    (request_json : Option Json) : Except PyErr (Json × Nat) :=
  match request_json with
  | none => .ok (errObj "Invalid JSON in request body", 400)
  | some rj =>
    if rj.isTruthy then do
      let llm_output ← dictGet rj "llm_output" (.str "")
      let ontology_name ← dictGet rj "ontology" (.str "mortgage-compliance-v1")
      if llm_output.isTruthy then do
        let response_body ← runPipeline storage_client parse smt_verify
          verification_id timestamp llm_output (pyStr ontology_name)
        return (response_body, 200)
      else
        return (errObj "llm_output is required", 400)
    else .ok (errObj "Invalid JSON in request body", 400)

/-- The `verify` Cloud Function: CORS headers first, then the OPTIONS
preflight, the POST-only gate, and the `try`/`except` turning any
exception from the body into a 500 response carrying `str(e)` and
`type(e).__name__`.  The external `LLMParser.parse` and
`SMTVerifier.verify` calls and the fresh `uuid4`/UTC timestamp are
parameters. -/
def verify (storage_client : Option StoreBehavior)
    (parse smt_verify : Json → Json → Except PyErr Json)
    (verification_id timestamp : String)
    (request : Request) : HttpResponse :=
  let cors_headers := get_cors_headers request
  if request.method = "OPTIONS" then
    ⟨.empty, 204, cors_headers⟩
  else if request.method ≠ "POST" then
    ⟨.jsonBody (errObj "Method not allowed"), 405, cors_headers⟩
  else
    match tryBody storage_client parse smt_verify verification_id timestamp request.body with
    | .ok (b, status) => ⟨.jsonBody b, status, cors_headers⟩
    | .error e => ⟨.jsonBody (Json.obj [("error", .str e.msg), ("type", .str e.ty)]), 500, cors_headers⟩

/-!  Shared predicates and concrete fixtures used by the theorems. -/

/-- The enumerated failure behaviours of the storage layer for a given
name: client absent; fetch raising `NotFound`; fetch raising any other
exception; the fetched text failing to parse as JSON; or the fetched
document failing validation. -/
def loadFallsBack (storage_client : Option StoreBehavior) (ontology_name : String) : Prop :=
  storage_client = none ∨
    ∃ sb, storage_client = some sb ∧
      (sb.fetch (ontology_name ++ ".json") = .notFound ∨
        (∃ m, sb.fetch (ontology_name ++ ".json") = .fetchError m) ∨
        sb.fetch (ontology_name ++ ".json") = .badJson ∨
        (∃ d e, sb.fetch (ontology_name ++ ".json") = .doc d ∧
          OntologyLoader.validate_ontology d = .error e))

/-- Follows the words of the spec claim (the refinement target for
`list_available`): keep the `*.json` names and strip only the trailing
`".json"` suffix, leaving the rest of the object name unchanged. -/
def list_available_spec (storage_client : Option StoreBehavior) : List String :=
  match storage_client with
  | some sb =>
    match sb.listBlobs with
    | .names ns =>
      (ns.filter (fun n => List.isSuffixOf ['.', 'j', 's', 'o', 'n'] n.data)).map
        (fun n => ⟨n.data.take (n.data.length - 5)⟩)
    | .err _ => ["mortgage-compliance-v1"]
  | none => ["mortgage-compliance-v1"]

/-- An extractor/solver stand-in that always succeeds. -/
def okParse : Json → Json → Except PyErr Json := fun _ _ => .ok Json.null

/-- An extractor stand-in whose call raises. -/
def failingParse : Json → Json → Except PyErr Json :=
  fun _ _ => .error ⟨"RuntimeError", "solver backend unavailable"⟩

/-- A storage behaviour whose fetches all raise `NotFound` and whose
listing raises. -/
def sbNotFound : StoreBehavior := ⟨fun _ => .notFound, .err "listing unavailable"⟩

/-- A storage behaviour whose listing succeeds with one well-formed
object name. -/
def sbListed : StoreBehavior := ⟨fun _ => .notFound, .names ["risk-rules-v2.json"]⟩

/-- A storage behaviour whose listing yields a name in which `".json"`
occurs twice. -/
def sbDoubleJson : StoreBehavior := ⟨fun _ => .notFound, .names ["a.json.json"]⟩

/-- First nine entries of a full cache. -/
def cacheFront9 : List (String × Json) :=
  [("n0", .null), ("n1", .null), ("n2", .null), ("n3", .null), ("n4", .null),
    ("n5", .null), ("n6", .null), ("n7", .null), ("n8", .null)]

/-- A cache filled to `maxsize` with ten distinct names, `"n9"` least
recently used. -/
def cache10 : List (String × Json) := cacheFront9 ++ [("n9", .null)]

/-!  Theorems. -/

theorem default_has_required_fields :
    hasRequiredFields OntologyLoader.get_default_ontology = true := by rfl

/-- C1: for every ontology name and every failure behaviour of the
storage client — client absent, fetch raising `NotFound` or any other
exception, malformed JSON, or a document failing validation —
`OntologyLoader.load` does not raise (it is a total function in the
model, because the source's `try`/`except` absorbs every exception
raised inside the `try` block) and returns an ontology document
containing all four required fields `name`, `version`, `constraints`,
`extractors`. -/
theorem load_failure_yields_required_fields
    (storage_client : Option StoreBehavior) (ontology_name : String)
    (h : loadFallsBack storage_client ontology_name) :
    hasRequiredFields (OntologyLoader.load storage_client ontology_name) = true := by
  rcases h with rfl | ⟨sb, rfl, hcase⟩
  · exact default_has_required_fields
  · rcases hcase with hf | ⟨m, hf⟩ | hf | ⟨d, e, hf, hv⟩
    · simp only [OntologyLoader.load, hf]
      exact default_has_required_fields
    · simp only [OntologyLoader.load, hf]
      exact default_has_required_fields
    · simp only [OntologyLoader.load, hf]
      exact default_has_required_fields
    · simp only [OntologyLoader.load, hf, hv]
      exact default_has_required_fields

theorem load_failure_yields_required_fields_witness :
    hasRequiredFields (OntologyLoader.load none "mortgage-compliance-v1") = true :=
  load_failure_yields_required_fields none "mortgage-compliance-v1" (Or.inl rfl)

/-- C2: on every failure outcome of the fetch (object missing, any
other fetch error, malformed JSON, or failed validation),
`OntologyLoader.load` returns the built-in default ontology, whose
`name` is `"mortgage-compliance-v1"`, whose `constraints` sequence has
exactly 5 elements and whose `extractors` mapping has exactly 10
entries; all four failure outcomes yield this same result. -/
theorem load_failure_returns_default_ontology
    (storage_client : Option StoreBehavior) (ontology_name : String)
    (h : loadFallsBack storage_client ontology_name) :
    OntologyLoader.load storage_client ontology_name = OntologyLoader.get_default_ontology ∧
    OntologyLoader.get_default_ontology.getKey "name" = some (.str "mortgage-compliance-v1") ∧
    (∃ cs, OntologyLoader.get_default_ontology.getKey "constraints" = some (.arr cs) ∧
      cs.length = 5) ∧
    (∃ es, OntologyLoader.get_default_ontology.getKey "extractors" = some (.obj es) ∧
      es.length = 10) := by
  refine ⟨?_, by rfl, ⟨_, rfl, by rfl⟩, ⟨_, rfl, by rfl⟩⟩
  rcases h with rfl | ⟨sb, rfl, hcase⟩
  · rfl
  · rcases hcase with hf | ⟨m, hf⟩ | hf | ⟨d, e, hf, hv⟩
    · simp only [OntologyLoader.load, hf]
    · simp only [OntologyLoader.load, hf]
    · simp only [OntologyLoader.load, hf]
    · simp only [OntologyLoader.load, hf, hv]

theorem load_failure_returns_default_ontology_witness :
    OntologyLoader.load (some sbNotFound) "missing-ontology" =
      OntologyLoader.get_default_ontology :=
  (load_failure_returns_default_ontology (some sbNotFound) "missing-ontology"
    (Or.inr ⟨sbNotFound, rfl, Or.inl rfl⟩)).1

/-- C7: `OntologyLoader.list_available` never raises (total in the
model) and on any storage failure — including an uninitialised storage
client — returns exactly the one-element list
`["mortgage-compliance-v1"]`. -/
theorem list_available_failure_returns_default
    (storage_client : Option StoreBehavior)
    (h : storage_client = none ∨
      ∃ sb m, storage_client = some sb ∧ sb.listBlobs = .err m) :
    OntologyLoader.list_available storage_client = ["mortgage-compliance-v1"] := by
  rcases h with rfl | ⟨sb, m, rfl, hl⟩
  · rfl
  · simp only [OntologyLoader.list_available, hl]

theorem list_available_failure_returns_default_witness :
    OntologyLoader.list_available none = ["mortgage-compliance-v1"] :=
  list_available_failure_returns_default none (Or.inl rfl)

theorem stripJsonAll_cons (c : Char) (l : List Char)
    (h : startsWithJson (c :: l) = false) :
    stripJsonAll (c :: l) = c :: stripJsonAll l := by
  cases l with
  | nil => rfl
  | cons b l1 =>
    cases l1 with
    | nil => rfl
    | cons c2 l2 =>
      cases l2 with
      | nil => rfl
      | cons d l3 =>
        cases l3 with
        | nil => rfl
        | cons e rest =>
          simp only [startsWithJson] at h
          simp only [stripJsonAll]
          rw [if_neg (by simp [h])]

theorem startsWithJson_append (c : Char) (l : List Char)
    (h : startsWithJson (c :: l) = false) :
    startsWithJson ((c :: l) ++ ['.', 'j', 's', 'o', 'n']) = false := by
  cases l with
  | nil =>
    simp only [List.cons_append, List.nil_append, startsWithJson,
      show (('.' : Char) == 'j') = false from rfl, Bool.false_and, Bool.and_false]
  | cons b l1 =>
    cases l1 with
    | nil =>
      simp only [List.cons_append, List.nil_append, startsWithJson,
        show (('.' : Char) == 's') = false from rfl, Bool.false_and, Bool.and_false]
    | cons c2 l2 =>
      cases l2 with
      | nil =>
        simp only [List.cons_append, List.nil_append, startsWithJson,
          show (('.' : Char) == 'o') = false from rfl, Bool.false_and, Bool.and_false]
      | cons d l3 =>
        cases l3 with
        | nil =>
          simp only [List.cons_append, List.nil_append, startsWithJson,
            show (('.' : Char) == 'n') = false from rfl, Bool.false_and, Bool.and_false]
        | cons e rest =>
          simp only [startsWithJson] at h
          simp only [List.cons_append, startsWithJson]
          exact h

theorem stripJsonAll_append_of_not_contains (t : List Char)
    (h : containsJson t = false) :
    stripJsonAll (t ++ ['.', 'j', 's', 'o', 'n']) = t := by
  induction t with
  | nil => rfl
  | cons c t' ih =>
    rw [containsJson, Bool.or_eq_false_iff] at h
    have h3 : startsWithJson (c :: (t' ++ ['.', 'j', 's', 'o', 'n'])) = false :=
      startsWithJson_append c t' h.1
    rw [List.cons_append, stripJsonAll_cons _ _ h3, ih h.2]

/-- C8 counterexample: with the store listing exactly one object named
`"a.json.json"`, `list_available` returns `["a"]` — the code removes
every occurrence of `".json"` (`str.replace`), while stripping only the
trailing suffix, as the claim states, would return `["a.json"]`. -/
theorem list_available_not_only_suffix_stripped :
    OntologyLoader.list_available (some sbDoubleJson) = ["a"] ∧
    list_available_spec (some sbDoubleJson) = ["a.json"] ∧
    OntologyLoader.list_available (some sbDoubleJson) ≠
      list_available_spec (some sbDoubleJson) :=
  ⟨by decide, by decide, by decide⟩

/-- C8 (amended): when the store listing succeeds, `list_available`
returns the names of all objects ending in `".json"`, each transformed
by deleting every non-overlapping occurrence of the substring
`".json"` (Python's `str.replace(".json", "")`), not only the trailing
suffix; in particular, for an object name whose stem contains no
occurrence of `".json"`, the result is exactly the name with the
trailing suffix stripped. -/
theorem list_available_success_strips_every_occurrence
    (sb : StoreBehavior) (ns : List String) (h : sb.listBlobs = .names ns) :
    OntologyLoader.list_available (some sb) =
      (ns.filter (fun n => List.isSuffixOf ['.', 'j', 's', 'o', 'n'] n.data)).map
        (fun n => (⟨stripJsonAll n.data⟩ : String)) ∧
    ∀ stem : List Char, containsJson stem = false →
      stripJsonAll (stem ++ ['.', 'j', 's', 'o', 'n']) = stem :=
  ⟨by simp only [OntologyLoader.list_available, h],
    stripJsonAll_append_of_not_contains⟩

theorem list_available_success_strips_every_occurrence_witness :
    OntologyLoader.list_available (some sbListed) = ["risk-rules-v2"] := by
  rw [(list_available_success_strips_every_occurrence sbListed ["risk-rules-v2.json"] rfl).1]
  decide

theorem lookupKey_eq_none (l : List (String × Json)) (key : String) :
    lookupKey l key = none ↔ key ∉ l.map Prod.fst := by
  induction l with
  | nil => simp [lookupKey]
  | cons p rest ih =>
    obtain ⟨k, v⟩ := p
    by_cases hk : k = key
    · subst hk
      simp [lookupKey]
    · simp [lookupKey, hk, ih, Ne.symm hk]

/-- C4: the `functools.lru_cache(maxsize=10)` memoisation of `load`.
A call with a name already cached returns the identical memoised
document without invoking the wrapped function again; a call with a
fresh name while the cache holds 10 distinct names (the 11th distinct
name overall) invokes the wrapped function once, keeps the cache at
capacity 10, and evicts exactly the least-recently-used entry; a miss
below capacity evicts nothing. -/
theorem cachedLoad_lru
    (storage_client : Option StoreBehavior) (st : LoadState) (ontology_name : String) :
    (∀ v, lookupKey st.cache ontology_name = some v →
      (cachedLoad storage_client st ontology_name).1 = v ∧
      (cachedLoad storage_client st ontology_name).2.fetchCount = st.fetchCount) ∧
    (∀ front lruKey lruVal,
      st.cache = front ++ [(lruKey, lruVal)] →
      front.length = 9 →
      (st.cache.map Prod.fst).Nodup →
      ontology_name ∉ st.cache.map Prod.fst →
      (cachedLoad storage_client st ontology_name).2.cache =
        (ontology_name, OntologyLoader.load storage_client ontology_name) :: front ∧
      (cachedLoad storage_client st ontology_name).2.cache.length = lru_maxsize ∧
      lruKey ∉ ((cachedLoad storage_client st ontology_name).2.cache.map Prod.fst) ∧
      (cachedLoad storage_client st ontology_name).2.fetchCount = st.fetchCount + 1) ∧
    (lookupKey st.cache ontology_name = none →
      st.cache.length < lru_maxsize →
      (cachedLoad storage_client st ontology_name).2.cache.map Prod.fst =
        ontology_name :: st.cache.map Prod.fst) := by
  refine ⟨?_, ?_, ?_⟩
  · intro v hv
    simp [cachedLoad, hv]
  · intro front lruKey lruVal hsplit h9 hnd hmem
    have hnone : lookupKey st.cache ontology_name = none := (lookupKey_eq_none _ _).mpr hmem
    have hcache : (cachedLoad storage_client st ontology_name).2.cache =
        (ontology_name, OntologyLoader.load storage_client ontology_name) :: front := by
      simp only [cachedLoad, hnone]
      show ((ontology_name, OntologyLoader.load storage_client ontology_name) ::
        st.cache).take lru_maxsize = _
      rw [hsplit, show lru_maxsize = 9 + 1 from rfl, List.take_succ_cons, ← h9,
        List.take_left]
    have hkey_mem : lruKey ∈ st.cache.map Prod.fst := by
      rw [hsplit]
      simp
    have hkey_ne : lruKey ≠ ontology_name := by
      intro heq
      exact hmem (heq ▸ hkey_mem)
    have hkey_front : lruKey ∉ front.map Prod.fst := by
      have hd : (front.map Prod.fst).Disjoint ([(lruKey, lruVal)].map Prod.fst) := by
        refine List.disjoint_of_nodup_append ?_
        rw [← List.map_append, ← hsplit]
        exact hnd
      intro hin
      exact hd hin (by simp)
    refine ⟨hcache, ?_, ?_, ?_⟩
    · rw [hcache]
      simp [h9, lru_maxsize]
    · rw [hcache]
      simp only [List.map_cons, List.mem_cons]
      rintro (h | h)
      · exact hkey_ne h
      · exact hkey_front h
    · simp [cachedLoad, hnone]
  · intro hnone hlt
    simp only [cachedLoad, hnone]
    rw [List.take_of_length_le (by simpa using hlt)]
    rfl

theorem cachedLoad_lru_witness :
    (cachedLoad none ⟨cache10, 0⟩ "n3").1 = Json.null ∧
    (cachedLoad none ⟨cache10, 0⟩ "n3").2.fetchCount = 0 ∧
    (cachedLoad none ⟨cache10, 5⟩ "fresh-ontology").2.cache.length = lru_maxsize ∧
    "n9" ∉ ((cachedLoad none ⟨cache10, 5⟩ "fresh-ontology").2.cache.map Prod.fst) ∧
    (cachedLoad none ⟨cache10, 5⟩ "fresh-ontology").2.fetchCount = 6 ∧
    (cachedLoad none ⟨cacheFront9, 0⟩ "fresh-ontology").2.cache.map Prod.fst =
      "fresh-ontology" :: cacheFront9.map Prod.fst := by
  have ha := (cachedLoad_lru none ⟨cache10, 0⟩ "n3").1 Json.null rfl
  have hb := (cachedLoad_lru none ⟨cache10, 5⟩ "fresh-ontology").2.1 cacheFront9 "n9" Json.null
    rfl rfl (by decide) (by decide)
  have hc := (cachedLoad_lru none ⟨cacheFront9, 0⟩ "fresh-ontology").2.2 rfl (by decide)
  exact ⟨ha.1, ha.2, hb.2.1, hb.2.2.1, hb.2.2.2, hc⟩

/-- C5: every response the handler produces carries the CORS headers
computed from the request, and `Access-Control-Allow-Origin` equals the
request's `Origin` header exactly when that origin is one of the four
allow-listed values, and otherwise — including when the `Origin` header
is absent — equals the first allow-listed origin
`"https://aare.ai"`. -/
theorem cors_every_response
    (storage_client : Option StoreBehavior)
    (parse smt_verify : Json → Json → Except PyErr Json)
    (verification_id timestamp : String) (request : Request) :
    (verify storage_client parse smt_verify verification_id timestamp request).headers =
      get_cors_headers request ∧
    (verify storage_client parse smt_verify verification_id timestamp request).headers.allowOrigin =
      (if request.origin.getD "" ∈ ALLOWED_ORIGINS then request.origin.getD ""
        else "https://aare.ai") := by
  have h1 : (verify storage_client parse smt_verify verification_id timestamp request).headers =
      get_cors_headers request := by
    simp only [verify]
    split
    · rfl
    · split
      · rfl
      · split <;> rfl
  refine ⟨h1, ?_⟩
  rw [h1]
  by_cases hc : request.origin.getD "" ∈ ALLOWED_ORIGINS
  · simp [get_cors_headers, hc]
  · simp only [get_cors_headers, hc, if_neg hc]
    rfl

/-- C6: for every POST request, an exception raised anywhere inside the
`try` block — ontology loading, extraction, verification, or response
assembly — reaches the single top-level `except` and becomes a 500
response whose body carries the exception's message under `"error"` and
its type name under `"type"`; the handler itself (total in the model)
never lets the exception escape. -/
theorem top_level_exception_to_500
    (storage_client : Option StoreBehavior)
    (parse smt_verify : Json → Json → Except PyErr Json)
    (verification_id timestamp : String) (origin : Option String)
    (body : Option Json) (e : PyErr)
    (h : tryBody storage_client parse smt_verify verification_id timestamp body = .error e) :
    verify storage_client parse smt_verify verification_id timestamp ⟨"POST", origin, body⟩ =
      ⟨.jsonBody (Json.obj [("error", .str e.msg), ("type", .str e.ty)]), 500,
        get_cors_headers ⟨"POST", origin, body⟩⟩ := by
  simp only [verify]
  rw [if_neg (by decide), if_neg (by decide), h]

theorem top_level_exception_to_500_witness :
    verify none failingParse okParse "vid0" "ts0"
      ⟨"POST", none, some (Json.obj [("llm_output", Json.str "DTI: 50%")])⟩ =
      ⟨.jsonBody (Json.obj [("error", .str "solver backend unavailable"),
        ("type", .str "RuntimeError")]), 500,
        get_cors_headers ⟨"POST", none, some (Json.obj [("llm_output", Json.str "DTI: 50%")])⟩⟩ :=
  top_level_exception_to_500 none failingParse okParse "vid0" "ts0" none
    (some (Json.obj [("llm_output", Json.str "DTI: 50%")]))
    ⟨"RuntimeError", "solver backend unavailable"⟩ rfl

/-- The `try` body on a request body parsed to a truthy JSON object:
both dictionary reads succeed, and the outcome is decided by the
truthiness of the `llm_output` value. -/
theorem tryBody_obj (storage_client : Option StoreBehavior)
    (parse smt_verify : Json → Json → Except PyErr Json)
    (verification_id timestamp : String) (kvs : List (String × Json))
    (hne : kvs.isEmpty = false) :
    tryBody storage_client parse smt_verify verification_id timestamp (some (Json.obj kvs)) =
      if ((lookupKey kvs "llm_output").getD (Json.str "")).isTruthy then
        (runPipeline storage_client parse smt_verify verification_id timestamp
          ((lookupKey kvs "llm_output").getD (Json.str ""))
          (pyStr ((lookupKey kvs "ontology").getD (Json.str "mortgage-compliance-v1")))).bind
          (fun response_body => .ok (response_body, 200))
      else .ok (errObj "llm_output is required", 400) := by
  have htruthy : (Json.obj kvs).isTruthy = true := by
    simp [Json.isTruthy, hne]
  simp only [tryBody, htruthy, if_true]
  rfl

/-- C3 counterexample: the body `{}` parses as JSON and has
`llm_output` missing, yet the handler answers with the invalid-JSON
message — not with `{"error":"llm_output is required"}` as the claim
states. -/
theorem empty_object_not_llm_output_error :
    verify none okParse okParse "vid" "ts" ⟨"POST", none, some (Json.obj [])⟩ =
      ⟨.jsonBody (errObj "Invalid JSON in request body"), 400,
        get_cors_headers ⟨"POST", none, some (Json.obj [])⟩⟩ ∧
    verify none okParse okParse "vid" "ts" ⟨"POST", none, some (Json.obj [])⟩ ≠
      ⟨.jsonBody (errObj "llm_output is required"), 400,
        get_cors_headers ⟨"POST", none, some (Json.obj [])⟩⟩ := by
  refine ⟨rfl, ?_⟩
  intro hcontra
  have hb : Body.jsonBody (errObj "Invalid JSON in request body") =
      Body.jsonBody (errObj "llm_output is required") :=
    congrArg HttpResponse.body hcontra
  injection hb with hb1
  injection hb1 with hb2
  injection hb2 with hb3 hb4
  injection hb3 with hb5 hb6
  injection hb6 with hb7
  exact absurd hb7 (by decide)

/-- C3 (amended): for every POST request whose body parses to a
non-empty JSON object in which the field `llm_output` is missing or
empty, the handler returns status 400 with body
`{"error":"llm_output is required"}`.  (As originally stated the claim
fails on bodies parsing to falsy JSON values such as `{}`, which take
the invalid-JSON branch instead — see the counterexample.) -/
theorem missing_llm_output_returns_400
    (storage_client : Option StoreBehavior)
    (parse smt_verify : Json → Json → Except PyErr Json)
    (verification_id timestamp : String) (origin : Option String)
    (kvs : List (String × Json))
    (hne : kvs ≠ [])
    (h : lookupKey kvs "llm_output" = none ∨
      lookupKey kvs "llm_output" = some (Json.str "")) :
    verify storage_client parse smt_verify verification_id timestamp
      ⟨"POST", origin, some (Json.obj kvs)⟩ =
      ⟨.jsonBody (errObj "llm_output is required"), 400,
        get_cors_headers ⟨"POST", origin, some (Json.obj kvs)⟩⟩ := by
  have hne' : kvs.isEmpty = false := by
    cases kvs with
    | nil => exact absurd rfl hne
    | cons p rest => rfl
  have h1 := tryBody_obj storage_client parse smt_verify verification_id timestamp kvs hne'
  have hfalse : ((lookupKey kvs "llm_output").getD (Json.str "")).isTruthy = false := by
    rcases h with h | h <;> rw [h] <;> rfl
  rw [hfalse] at h1
  simp only [Bool.false_eq_true, if_false] at h1
  simp only [verify]
  rw [if_neg (by decide), if_neg (by decide), h1]

theorem missing_llm_output_returns_400_witness :
    verify none okParse okParse "vid2" "ts2"
      ⟨"POST", none, some (Json.obj [("ontology", Json.str "x")])⟩ =
      ⟨.jsonBody (errObj "llm_output is required"), 400,
        get_cors_headers ⟨"POST", none, some (Json.obj [("ontology", Json.str "x")])⟩⟩ :=
  missing_llm_output_returns_400 none okParse okParse "vid2" "ts2" none
    [("ontology", Json.str "x")] (by simp) (Or.inl rfl)

/-- C9: a POST whose body parses to a falsy JSON value (`{}`, `[]`,
`0`, `false`, `""`, `null`) receives status 400 with body
`{"error":"Invalid JSON in request body"}` — the same response as an
unparseable body — rather than proceeding to the `llm_output` check. -/
theorem falsy_body_same_as_unparseable
    (storage_client : Option StoreBehavior)
    (parse smt_verify : Json → Json → Except PyErr Json)
    (verification_id timestamp : String) (origin : Option String) (j : Json)
    (h : j.isTruthy = false) :
    verify storage_client parse smt_verify verification_id timestamp
      ⟨"POST", origin, some j⟩ =
      ⟨.jsonBody (errObj "Invalid JSON in request body"), 400,
        get_cors_headers ⟨"POST", origin, some j⟩⟩ ∧
    verify storage_client parse smt_verify verification_id timestamp
      ⟨"POST", origin, none⟩ =
      ⟨.jsonBody (errObj "Invalid JSON in request body"), 400,
        get_cors_headers ⟨"POST", origin, none⟩⟩ := by
  constructor
  · simp only [verify]
    rw [if_neg (by decide), if_neg (by decide)]
    have h2 : tryBody storage_client parse smt_verify verification_id timestamp (some j) =
        .ok (errObj "Invalid JSON in request body", 400) := by
      simp only [tryBody, h, Bool.false_eq_true, if_false]
    rw [h2]
  · simp only [verify]
    rw [if_neg (by decide), if_neg (by decide)]
    rfl

theorem falsy_body_same_as_unparseable_witness :
    verify none okParse okParse "vid3" "ts3" ⟨"POST", none, some (Json.obj [])⟩ =
      ⟨.jsonBody (errObj "Invalid JSON in request body"), 400,
        get_cors_headers ⟨"POST", none, some (Json.obj [])⟩⟩ :=
  (falsy_body_same_as_unparseable none okParse okParse "vid3" "ts3" none (Json.obj []) rfl).1

/-- C10: the `llm_output` validation checks only truthiness, not type:
a POST whose body is a JSON object whose `llm_output` field holds any
truthy non-string value is not rejected with 400; the `try` body
reduces to the pipeline applied to exactly that value, so it proceeds
to ontology loading and extraction with it. -/
theorem truthy_llm_output_proceeds
    (storage_client : Option StoreBehavior)
    (parse smt_verify : Json → Json → Except PyErr Json)
    (verification_id timestamp : String) (origin : Option String)
    (kvs : List (String × Json)) (v : Json)
    (hv : lookupKey kvs "llm_output" = some v)
    (ht : v.isTruthy = true)
    (hns : ∀ s, v ≠ Json.str s) :
    tryBody storage_client parse smt_verify verification_id timestamp (some (Json.obj kvs)) =
      (runPipeline storage_client parse smt_verify verification_id timestamp v
        (pyStr ((lookupKey kvs "ontology").getD (Json.str "mortgage-compliance-v1")))).bind
        (fun response_body => .ok (response_body, 200)) ∧
    (verify storage_client parse smt_verify verification_id timestamp
      ⟨"POST", origin, some (Json.obj kvs)⟩).status ≠ 400 := by
  have hne : kvs.isEmpty = false := by
    cases kvs with
    | nil => simp [lookupKey] at hv
    | cons p rest => rfl
  have h1 := tryBody_obj storage_client parse smt_verify verification_id timestamp kvs hne
  rw [hv] at h1
  simp only [Option.getD_some, ht, if_true] at h1
  refine ⟨h1, ?_⟩
  simp only [verify]
  rw [if_neg (by decide), if_neg (by decide), h1]
  cases hpipe : runPipeline storage_client parse smt_verify verification_id timestamp v
      (pyStr ((lookupKey kvs "ontology").getD (Json.str "mortgage-compliance-v1"))) with
  | ok b => simp [Except.bind]
  | error e => simp [Except.bind]

theorem truthy_llm_output_proceeds_witness :
    tryBody none okParse okParse "vid1" "ts1"
      (some (Json.obj [("llm_output", Json.num 47)])) =
      (runPipeline none okParse okParse "vid1" "ts1" (Json.num 47)
        (pyStr (Json.str "mortgage-compliance-v1"))).bind
        (fun response_body => .ok (response_body, 200)) ∧
    (verify none okParse okParse "vid1" "ts1"
      ⟨"POST", none, some (Json.obj [("llm_output", Json.num 47)])⟩).status ≠ 400 := by
  have h := truthy_llm_output_proceeds none okParse okParse "vid1" "ts1" none
    [("llm_output", Json.num 47)] (Json.num 47) rfl rfl
    (fun s hcontra => Json.noConfusion hcontra)
  exact ⟨h.1, h.2⟩
